import Mathlib

/-!
Shallow embedding of two Prow plugins.

Part 1: the require-matching-label reconciliation engine. Only the test
file of this plugin is present in the repository snapshot, so the engine
itself is modelled from the specification (sections 3 to 7 of spec.md) and
validated against the concrete scenarios of TestHandle in
require-matching-label_test.go.

Part 2: the size plugin (size.go), embedded directly from the source.
-/

namespace RequireMatchingLabel

/-- Modelled from the spec: the Rule record of section 3 (the plugin
configuration type plugins.RequireMatchingLabel whose Go definition is not
in the snapshot; field names follow the test file). The regular expression
Re is embedded as an abstract predicate on label names. -/
structure Rule where
  org : String
  repo : String
  branch : String
  issues : Bool
  prs : Bool
  re : String → Bool
  missingLabel : String
  missingComment : String

/-- Modelled from the spec: the classified Event of section 3 (field names
follow the test file). An empty branch signals an issue-type event, a
non-empty branch a pull-request-type event; an empty label signals a
non-label-change trigger. -/
structure Event where
  org : String
  repo : String
  branch : String
  label : String

/-- Modelled from the spec: a Mutation is a pure intent (section 3). -/
inductive Mutation where
  | addLabel (name : String)
  | removeLabel (name : String)
  | postComment (text : String)
deriving DecidableEq

/-- Modelled from the spec: ScopeMatcher (section 4.2). Org is exact and
case-sensitive; an empty rule repo is a wildcard; the item-type gate picks
issues or PRs by the emptiness of the event branch; the branch gate is
consulted only for pull-request events (non-empty event branch). -/
def scopeMatches (r : Rule) (e : Event) : Bool :=
  r.org == e.org &&
  (r.repo == "" || r.repo == e.repo) &&
  (if e.branch == "" then r.issues else r.prs) &&
  (e.branch == "" || r.branch == "" || r.branch == e.branch)

/-- Modelled from the spec: RelevanceFilter (section 4.3). A non-label
trigger is always relevant; a label trigger is relevant iff it matches the
rule pattern or equals the marker label. -/
def isRelevant (r : Rule) (e : Event) : Bool :=
  e.label == "" || r.re e.label || e.label == r.missingLabel

/-- Modelled from the spec: the per-rule scan of the label snapshot, in
the loop style of the engine: one pass computing whether some label
matches the rule pattern (first component) and whether the marker label is
present (second component). -/
def scanLabels (r : Rule) (snapshot : List String) : Bool × Bool :=
  snapshot.foldl
    (fun acc name => (acc.1 || r.re name, acc.2 || (name == r.missingLabel)))
    (false, false)

/-- Modelled from the spec: ReconciliationActuator (section 4.5). Combines
the evaluator verdict with the marker-label state to produce zero or one
label mutation, plus an optional notification comment when the marker
label is newly added. -/
def reconcile (r : Rule) (snapshot : List String) : List Mutation :=
  let scanned := scanLabels r snapshot
  let hasMatching := scanned.1
  let hasMissing := scanned.2
  if hasMatching && hasMissing then
    [Mutation.removeLabel r.missingLabel]
  else if !hasMatching && !hasMissing then
    Mutation.addLabel r.missingLabel ::
      (if r.missingComment != "" then [Mutation.postComment r.missingComment] else [])
  else
    []

/-- Modelled from the spec: the effect of executing one mutation on the
label set held by the platform collaborator (the fake GitHub of the test
file inserts on AddLabel, deletes on RemoveLabel, and leaves labels
unchanged on CreateComment). -/
def applyMutation (labels : List String) (m : Mutation) : List String :=
  match m with
  | Mutation.addLabel n => if labels.contains n then labels else labels ++ [n]
  | Mutation.removeLabel n => labels.filter (fun x => x != n)
  | Mutation.postComment _ => labels

/-- Modelled from the spec: executing a mutation list in order. -/
def applyMutations (labels : List String) (ms : List Mutation) : List String :=
  ms.foldl applyMutation labels

/-- Modelled from the spec: the body of the rule loop of the engine. A
surviving rule (in scope and relevant) is reconciled against the snapshot
taken before the loop; its mutations are executed on the live label state
and appended to the emitted list. -/
def handleStep (e : Event) (snapshot : List String)
    (acc : List String × List Mutation) (r : Rule) : List String × List Mutation :=
  if scopeMatches r e && isRelevant r e then
    let ms := reconcile r snapshot
    (applyMutations acc.1 ms, acc.2 ++ ms)
  else acc

/-- Modelled from the spec: ReconciliationEngine (section 4.6). The label
snapshot is fetched exactly once, before the rule loop; each surviving
rule is reconciled against that snapshot; the emitted mutations are
executed against the live label state as the loop proceeds, and are
concatenated in rule-declaration order. Returns the final label state and
the emitted mutation list. -/
def handle (rules : List Rule) (e : Event) (labels : List String) :
    List String × List Mutation :=
  rules.foldl (handleStep e labels) (labels, [])

/-- Modelled from the spec: event validation (section 7). A malformed
event, such as one with an empty org, is the one real error class of the
core; the pass must fail fast with a descriptive invalid-event error. -/
def validateEvent (e : Event) : Except String Unit :=
  if e.org == "" then Except.error "invalid event: empty org" else Except.ok ()

/-- Modelled from the spec: the full reconciliation pass (sections 4.6 and
7): validate the event, then run the engine; on a validation failure the
pass aborts with the error and produces no mutations. -/
def reconcilePass (rules : List Rule) (e : Event) (labels : List String) :
    Except String (List String × List Mutation) :=
  match validateEvent e with
  | Except.error msg => Except.error msg
  | Except.ok _ => Except.ok (handle rules e labels)

end RequireMatchingLabel

namespace SizePlugin

/-- plugins.Size: the configurable thresholds (size.go uses the fields S,
M, L, Xl, Xxl as Go ints). -/
structure Size where
  S : Int
  M : Int
  L : Int
  Xl : Int
  Xxl : Int

/-- defaultSizes from size.go. -/
def defaultSizes : Size := { S := 10, M := 30, L := 100, Xl := 500, Xxl := 1000 }

/-- The Go type size is an int; these are the six iota constants. -/
def sizeXS : Int := 0

def sizeS : Int := 1

def sizeM : Int := 2

def sizeL : Int := 3

def sizeXL : Int := 4

def sizeXXL : Int := 5

def labelXS : String := "size/XS"

def labelS : String := "size/S"

def labelM : String := "size/M"

def labelL : String := "size/L"

def labelXL : String := "size/XL"

def labelXXL : String := "size/XXL"

def labelUnknown : String := "size/?"

/-- (s size) label() from size.go: a switch over the six constants with a
default of labelUnknown (reachable in Go because size is an int). -/
def label (s : Int) : String :=
  if s == sizeXS then labelXS
  else if s == sizeS then labelS
  else if s == sizeM then labelM
  else if s == sizeL then labelL
  else if s == sizeXL then labelXL
  else if s == sizeXXL then labelXXL
  else labelUnknown

/-- bucket from size.go: the threshold chain over the configured sizes. -/
def bucket (lineCount : Int) (sizes : Size) : Int :=
  if lineCount < sizes.S then sizeXS
  else if lineCount < sizes.M then sizeS
  else if lineCount < sizes.L then sizeM
  else if lineCount < sizes.Xl then sizeL
  else if lineCount < sizes.Xxl then sizeXL
  else sizeXXL

/-- github.PullRequestEvent, restricted to the fields handlePR reads:
Action, PullRequest.Base.Repo.Owner.Login, PullRequest.Base.Repo.Name,
PullRequest.Number, PullRequest.Base.SHA. The action is the GitHub event
action string. -/
structure PullRequestEvent where
  action : String
  owner : String
  repo : String
  number : Int
  sha : String

/-- isPRChanged from size.go: the switch over the four actions that may
change the code diff. -/
def isPRChanged (pe : PullRequestEvent) : Bool :=
  pe.action == "opened" ||
  pe.action == "reopened" ||
  pe.action == "synchronize" ||
  pe.action == "edited"

/-- github.PullRequestChange, restricted to the fields handlePR reads. -/
structure PullRequestChange where
  filename : String
  additions : Int
  deletions : Int

/-- github.Label, restricted to the Name field. -/
structure Label where
  name : String

/-- One call through the githubClient interface of size.go, recorded so
that the embedding of handlePR exposes its whole effect trace. -/
inductive Call where
  | getFile (org repo filepath commit : String)
  | getPullRequestChanges (org repo : String) (number : Int)
  | getIssueLabels (org repo : String) (number : Int)
  | addLabel (owner repo : String) (number : Int) (label : String)
  | removeLabel (owner repo : String) (number : Int) (label : String)
deriving DecidableEq

/-- Outcome of genfiles.NewGroup (external package, not in the snapshot):
either a group, a ParseError (handlePR warns and continues with the
returned group), or another fatal error. Each outcome records the client
calls the constructor performed through gc. -/
inductive GenfilesOutcome where
  | ok (calls : List Call) (isMatch : String → Bool)
  | parseFailure (calls : List Call) (isMatch : String → Bool)
  | fatal (calls : List Call) (msg : String)

/-- Outcome of gitattributes.NewGroup (external package, not in the
snapshot), with the client calls its file-getter closure performed. -/
inductive GitattrOutcome where
  | ok (calls : List Call) (isLinguistGenerated : String → Bool)
  | fatal (calls : List Call) (msg : String)

/-- The environment a run of handlePR interacts with: the results the
collaborators and the githubClient return. RemoveLabel errors are only
logged by handlePR and change nothing observable, so they are not
modelled. -/
structure GithubEnv where
  genfiles : GenfilesOutcome
  gitattributes : GitattrOutcome
  changes : Except String (List PullRequestChange)
  labels : Except String (List Label)
  addLabelErr : String → Option String

/-- handlePR from size.go, embedded as a pure function from the
environment to the returned error (if any) and the ordered trace of
githubClient calls. -/
def handlePR (env : GithubEnv) (sizes : Size) (pe : PullRequestEvent) :
    Except String Unit × List Call :=
  if !isPRChanged pe then (Except.ok (), [])
  else
    let owner := pe.owner
    let repo := pe.repo
    let num := pe.number
    let afterGenfiles := fun (calls1 : List Call) (gfMatch : String → Bool) =>
      match env.gitattributes with
      | GitattrOutcome.fatal calls2 msg => (Except.error msg, calls1 ++ calls2)
      | GitattrOutcome.ok calls2 gaGenerated =>
        let calls3 := calls1 ++ calls2 ++ [Call.getPullRequestChanges owner repo num]
        match env.changes with
        | Except.error msg =>
            (Except.error ("can not get PR changes for size plugin: " ++ msg), calls3)
        | Except.ok changes =>
          let count := changes.foldl
            (fun acc change =>
              if gfMatch change.filename || gaGenerated change.filename then acc
              else acc + change.additions + change.deletions) 0
          let calls4 := calls3 ++ [Call.getIssueLabels owner repo num]
          let labels := match env.labels with
            | Except.error _ => []
            | Except.ok ls => ls
          let newLabel := label (bucket count sizes)
          let hasLabel := labels.any (fun l => l.name == newLabel)
          let removeCalls := labels.foldl
            (fun acc l =>
              if l.name == newLabel then acc
              else if l.name.startsWith "size/" then
                acc ++ [Call.removeLabel owner repo num l.name]
              else acc) []
          let calls5 := calls4 ++ removeCalls
          if hasLabel then (Except.ok (), calls5)
          else
            let calls6 := calls5 ++ [Call.addLabel owner repo num newLabel]
            match env.addLabelErr newLabel with
            | some msg =>
                (Except.error ("error adding label to " ++ owner ++ "/" ++ repo ++
                  " PR #" ++ toString num ++ ": " ++ msg), calls6)
            | none => (Except.ok (), calls6)
    match env.genfiles with
    | GenfilesOutcome.fatal calls msg => (Except.error msg, calls)
    | GenfilesOutcome.ok calls gfMatch => afterGenfiles calls gfMatch
    | GenfilesOutcome.parseFailure calls gfMatch => afterGenfiles calls gfMatch

end SizePlugin

namespace RequireMatchingLabel

/-- Sample rule: the needs-kind rule of TestHandle (org k8s, repo t-i,
PRs only, pattern matching a kind/ prefix). -/
def ruleKind : Rule :=
  { org := "k8s", repo := "t-i", branch := "", issues := false, prs := true,
    re := fun s => s.toList.take 5 == "kind/".toList,
    missingLabel := "needs-kind", missingComment := "" }

/-- Sample rule: the needs-cat rule of TestHandle (org k8s, repo t-i,
branch meow, issues and PRs, with a notification comment). -/
def ruleCat : Rule :=
  { org := "k8s", repo := "t-i", branch := "meow", issues := true, prs := true,
    re := fun s => s == "cat" || s == "floof" || s == "loaf",
    missingLabel := "needs-cat", missingComment := "Meow?" }

/-- Sample event: a pull request on k8s/t-i, branch master, no trigger
label. -/
def evPR : Event := { org := "k8s", repo := "t-i", branch := "master", label := "" }

/-- Sample event: a pull request on k8s/t-i with an unrelated trigger
label (the third TestHandle case). -/
def evUnrelated : Event :=
  { org := "k8s", repo := "t-i", branch := "master", label := "unrelated" }

/-- Sample event: an issue on k8s/t-i (empty branch). -/
def evIssue : Event := { org := "k8s", repo := "t-i", branch := "", label := "" }

/-- Sample event: wrong org (the second TestHandle case). -/
def evWrongOrg : Event :=
  { org := "fejtaverse", repo := "repo", branch := "master", label := "" }

/-- Sample event: right org, wrong repo. -/
def evWrongRepo : Event :=
  { org := "k8s", repo := "other", branch := "master", label := "" }

/-- Sample event: empty org, hence malformed. -/
def evEmptyOrg : Event := { org := "", repo := "r", branch := "", label := "" }

end RequireMatchingLabel

namespace SizePlugin

/-- Sample environment in which every collaborator succeeds trivially. -/
def env0 : GithubEnv :=
  { genfiles := GenfilesOutcome.ok [] (fun _ => false),
    gitattributes := GitattrOutcome.ok [] (fun _ => false),
    changes := Except.ok [],
    labels := Except.ok [],
    addLabelErr := fun _ => none }

/-- Sample pull-request event whose action is closed. -/
def pe0 : PullRequestEvent :=
  { action := "closed", owner := "o", repo := "r", number := 1, sha := "s" }

end SizePlugin

namespace RequireMatchingLabel

/-- Unfolding the snapshot scan: the fold computes the disjunction of the
pattern over the labels and the presence of the marker label. -/
theorem scanLabels_go (r : Rule) (l : List String) (a b : Bool) :
    l.foldl (fun acc name => (acc.1 || r.re name, acc.2 || (name == r.missingLabel))) (a, b) =
      (a || l.any r.re, b || l.any (fun name => name == r.missingLabel)) := by
  induction l generalizing a b with
  | nil => simp
  | cons x xs ih => simp [ih, Bool.or_assoc]

/-- The snapshot scan equals the pair of any-queries over the snapshot. -/
theorem scanLabels_eq (r : Rule) (snap : List String) :
    scanLabels r snap = (snap.any r.re, snap.any (fun name => name == r.missingLabel)) := by
  simpa [scanLabels] using scanLabels_go r snap false false

/-- The marker-presence side of the scan decides list membership. -/
theorem any_marker_iff (m : String) (snap : List String) :
    snap.any (fun name => name == m) = true ↔ m ∈ snap := by
  simp [List.any_eq_true]

/-- The rule loop, started from any accumulator, appends exactly the
concatenated reconciliations of the surviving rules against the fixed
snapshot. -/
theorem handle_go (e : Event) (snap : List String) (rules : List Rule) :
    ∀ (st : List String) (acc : List Mutation),
      (rules.foldl (handleStep e snap) (st, acc)).2 =
        acc ++ (rules.filter (fun r => scopeMatches r e && isRelevant r e)).flatMap
          (fun r => reconcile r snap) := by
  induction rules with
  | nil => intro st acc; simp
  | cons r rs ih =>
      intro st acc
      cases hc : scopeMatches r e && isRelevant r e
      · simp [List.foldl_cons, handleStep, hc, List.filter_cons, ih]
      · simp [List.foldl_cons, handleStep, hc, List.filter_cons, ih]

/-- The mutation list of the engine is the concatenation, in declaration
order, of the per-rule reconciliations of the surviving rules against the
initial snapshot. -/
theorem handle_snd (rules : List Rule) (e : Event) (labels : List String) :
    (handle rules e labels).2 =
      (rules.filter (fun r => scopeMatches r e && isRelevant r e)).flatMap
        (fun r => reconcile r labels) := by
  simpa [handle] using handle_go e labels rules labels []

/-- A rule filtered out by scope or relevance contributes no mutation. -/
theorem singleton_no_mutation (r : Rule) (e : Event) (labels : List String)
    (h : (scopeMatches r e && isRelevant r e) = false) :
    (handle [r] e labels).2 = [] := by
  simp [handle_snd, List.filter_cons, h]

/-- Claim C1: for every rule and label snapshot, reconciliation of that
single rule produces exactly the mutation of the four-case table:
RemoveLabel of the marker when the pattern is satisfied and the marker is
present; nothing when satisfied and absent; AddLabel of the marker,
followed by PostComment of the notification when it is non-empty, when
unsatisfied and absent; nothing when unsatisfied and present. -/
theorem reconcile_four_case_table (r : Rule) (snap : List String) :
    reconcile r snap =
      if ∃ n ∈ snap, r.re n = true then
        (if r.missingLabel ∈ snap then [Mutation.removeLabel r.missingLabel] else [])
      else
        (if r.missingLabel ∈ snap then []
         else Mutation.addLabel r.missingLabel ::
           (if r.missingComment ≠ "" then [Mutation.postComment r.missingComment] else [])) := by
  cases ha : snap.any r.re <;> cases hb : snap.any (fun name => name == r.missingLabel)
  all_goals
    first
    | (have hre : ¬ ∃ n ∈ snap, r.re n = true := by
        rw [← List.any_eq_true, ha]; simp
       have hmem : ¬ r.missingLabel ∈ snap := by
        rw [← any_marker_iff, hb]; simp
       simp [reconcile, scanLabels_eq, ha, hb, hre, hmem])
    | (have hre : ¬ ∃ n ∈ snap, r.re n = true := by
        rw [← List.any_eq_true, ha]; simp
       have hmem : r.missingLabel ∈ snap := (any_marker_iff _ _).mp hb
       simp [reconcile, scanLabels_eq, ha, hb, hre, hmem])
    | (have hre : ∃ n ∈ snap, r.re n = true := List.any_eq_true.mp ha
       have hmem : ¬ r.missingLabel ∈ snap := by
        rw [← any_marker_iff, hb]; simp
       simp [reconcile, scanLabels_eq, ha, hb, hre, hmem])
    | (have hre : ∃ n ∈ snap, r.re n = true := List.any_eq_true.mp ha
       have hmem : r.missingLabel ∈ snap := (any_marker_iff _ _).mp hb
       simp [reconcile, scanLabels_eq, ha, hb, hre, hmem])

/-- Claim C2: reconciliation is idempotent: when a pass yields no
mutations, applying those (zero) mutations leaves the snapshot unchanged
and a second pass over it again yields no mutations. -/
theorem handle_idempotent_on_converged (rules : List Rule) (e : Event)
    (labels : List String) (h : (handle rules e labels).2 = []) :
    (handle rules e (applyMutations labels (handle rules e labels).2)).2 = [] := by
  rw [h]
  exact h

/-- Witness for claim C2: the needs-kind rule over a pull request already
carrying a kind/ label is converged, and stays converged. -/
theorem handle_idempotent_on_converged_witness :
    (handle [ruleKind] evPR ["kind/best"]).2 = [] ∧
      (handle [ruleKind] evPR
        (applyMutations ["kind/best"] (handle [ruleKind] evPR ["kind/best"]).2)).2 = [] :=
  ⟨by decide, handle_idempotent_on_converged [ruleKind] evPR ["kind/best"] (by decide)⟩

/-- Claim C3: the engine output equals the concatenation, in
rule-declaration order, of each surviving rule reconciled against the one
snapshot fetched at the start of the pass; no rule mutation affects
another rule in the same pass. -/
theorem handle_concatenates_per_rule (rules : List Rule) (e : Event)
    (labels : List String) :
    (handle rules e labels).2 =
      (rules.filter (fun r => scopeMatches r e && isRelevant r e)).flatMap
        (fun r => reconcile r labels) :=
  handle_snd rules e labels

/-- Claim C4: relevance gating: a non-empty trigger label that neither
matches the rule pattern nor equals the marker label makes the rule
produce no mutation for any snapshot; and with an empty trigger label
every rule is always relevant. Each part carries only its own
conditions. -/
theorem relevance_gating (r : Rule) (e : Event) (labels : List String) :
    (e.label ≠ "" → r.re e.label = false → e.label ≠ r.missingLabel →
      (handle [r] e labels).2 = []) ∧
      (e.label = "" → isRelevant r e = true) := by
  constructor
  · intro h1 h2 h3
    refine singleton_no_mutation r e labels ?_
    have hrel : isRelevant r e = false := by simp [isRelevant, h1, h2, h3]
    simp [hrel]
  · intro h
    simp [isRelevant, h]

/-- Witness for claim C4: the needs-kind rule ignores the unrelated label
change of the third TestHandle case, and is relevant to a pull-request
event with no trigger label. -/
theorem relevance_gating_witness :
    (handle [ruleKind] evUnrelated ["lgtm"]).2 = [] ∧
      isRelevant ruleKind evPR = true :=
  ⟨(relevance_gating ruleKind evUnrelated ["lgtm"]).1 (by decide) (by decide) (by decide),
   (relevance_gating ruleKind evPR ["lgtm"]).2 (by decide)⟩

/-- Claim C5: branch-blindness for issues: for an issue-type event (empty
branch), a rule with a non-empty branch field and issues enabled applies
whenever its org and repo gates pass; the branch field is not consulted. -/
theorem branch_blind_for_issues (r : Rule) (e : Event)
    (hbranch : e.branch = "") (_hbr : r.branch ≠ "") (hiss : r.issues = true)
    (horg : r.org = e.org) (hrepo : r.repo = "" ∨ r.repo = e.repo) :
    scopeMatches r e = true := by
  rcases hrepo with hr | hr <;> simp [scopeMatches, hbranch, hiss, horg, hr]

/-- Witness for claim C5: the branch-scoped needs-cat rule applies to an
issue on k8s/t-i (the tenth TestHandle case). -/
theorem branch_blind_for_issues_witness : scopeMatches ruleCat evIssue = true :=
  branch_blind_for_issues ruleCat evIssue (by decide) (by decide) (by decide)
    (by decide) (Or.inr (by decide))

/-- Claim C6: scope exclusivity: a rule whose org differs from the event
org produces no mutation, and a rule with a non-empty repo produces no
mutation for an event with a different repo. -/
theorem scope_exclusivity (r : Rule) (e : Event) (labels : List String) :
    (r.org ≠ e.org → (handle [r] e labels).2 = []) ∧
      (r.repo ≠ "" → r.repo ≠ e.repo → (handle [r] e labels).2 = []) := by
  constructor
  · intro h
    exact singleton_no_mutation r e labels (by simp [scopeMatches, h])
  · intro h1 h2
    exact singleton_no_mutation r e labels (by simp [scopeMatches, h1, h2])

/-- Witness for claim C6: the needs-kind rule is silent for an event in
another org and for an event in another repo of its org. -/
theorem scope_exclusivity_witness :
    (handle [ruleKind] evWrongOrg ["lgtm"]).2 = [] ∧
      (handle [ruleKind] evWrongRepo ["lgtm"]).2 = [] :=
  ⟨(scope_exclusivity ruleKind evWrongOrg ["lgtm"]).1 (by decide),
   (scope_exclusivity ruleKind evWrongRepo ["lgtm"]).2 (by decide) (by decide)⟩

/-- Claim C7: an event with an empty org makes the reconciliation pass
fail fast with the descriptive invalid-event error, producing no
mutations. -/
theorem invalid_event_fails_fast (rules : List Rule) (e : Event)
    (labels : List String) (h : e.org = "") :
    reconcilePass rules e labels = Except.error "invalid event: empty org" := by
  simp [reconcilePass, validateEvent, h]

/-- Witness for claim C7: the pass over an event with an empty org aborts
with the invalid-event error. -/
theorem invalid_event_fails_fast_witness :
    reconcilePass [ruleKind] evEmptyOrg ["lgtm"] =
      Except.error "invalid event: empty org" :=
  invalid_event_fails_fast [ruleKind] evEmptyOrg ["lgtm"] (by decide)

end RequireMatchingLabel

namespace SizePlugin

/-- Claim C8: the size-bucketing function is monotone in the line count,
in the order XS, S, M, L, XL, XXL (the iota order of the size type), for
every size configuration. -/
theorem bucket_monotone (a b : Int) (sizes : Size) (h : a ≤ b) :
    bucket a sizes ≤ bucket b sizes := by
  unfold bucket sizeXS sizeS sizeM sizeL sizeXL sizeXXL
  split_ifs <;> omega

/-- Witness for claim C8: with the default thresholds, 3 lines bucket no
higher than 50 lines. -/
theorem bucket_monotone_witness :
    (3 : Int) ≤ 50 ∧ bucket 3 defaultSizes ≤ bucket 50 defaultSizes :=
  ⟨by norm_num, bucket_monotone 3 50 defaultSizes (by norm_num)⟩

/-- Claim C9: a pull-request event whose action is not opened, reopened,
synchronize or edited makes handlePR return nil without a single GitHub
client call: no label added or removed, no file or changes fetched. -/
theorem handlePR_noop_without_diff_change (env : GithubEnv) (sizes : Size)
    (pe : PullRequestEvent) (h : isPRChanged pe = false) :
    handlePR env sizes pe = (Except.ok (), []) := by
  simp [handlePR, h]

/-- Witness for claim C9: a closed action produces no calls and no
error. -/
theorem handlePR_noop_without_diff_change_witness :
    handlePR env0 defaultSizes pe0 = (Except.ok (), []) :=
  handlePR_noop_without_diff_change env0 defaultSizes pe0 (by decide)

/-- Claim C10: the bucket function only ever returns one of the six
defined size constants, so the label of its result is always one of the
six size labels and never the unknown label. -/
theorem bucket_label_never_unknown (n : Int) (sizes : Size) :
    (bucket n sizes = sizeXS ∨ bucket n sizes = sizeS ∨ bucket n sizes = sizeM ∨
      bucket n sizes = sizeL ∨ bucket n sizes = sizeXL ∨ bucket n sizes = sizeXXL) ∧
    label (bucket n sizes) ≠ labelUnknown := by
  unfold bucket
  split_ifs <;> exact ⟨by simp, by decide⟩

end SizePlugin
